import Mathlib

/-!
Shallow embedding of the Social 7 order-automation engine
(`order-automation.js`): the item parser, name canonicalization, guest-info
derivation, the fail-fast cart loop, the confirmation-page extraction
patterns, and the `placeOrder` pipeline's success/error bookkeeping.

Browser effects (navigation, clicks, typing, screenshots) are modelled as an
explicit environment of step outcomes (`Except String Unit`), matching the
JavaScript code's throw/catch structure; pure string processing is translated
directly.  JS character classes are modelled over their ASCII ranges, which
cover every string the program manipulates.
-/

namespace Social7

/-! ## Character classes of the JS regexes -/

/-- JS `\s` (ASCII range): space, tab, newline, vertical tab, form feed, CR. -/
def jsIsSpace (c : Char) : Bool :=
  c = ' ' || c = '\t' || c = '\n' || c = '\r' || c = '\x0b' || c = '\x0c'

/-- JS `\d`, exactly `[0-9]`. -/
def jsIsDigit (c : Char) : Bool :=
  '0' ≤ c && c ≤ '9'

/-- JS line terminators excluded by `.` in a regex without the `s` flag. -/
def isLineTerm (c : Char) : Bool :=
  c = '\n' || c = '\r'

/-- The class `[A-Z]`. -/
def isUpperAZ (c : Char) : Bool :=
  'A' ≤ c && c ≤ 'Z'

/-- The class `[a-z]`. -/
def isLowerAZ (c : Char) : Bool :=
  'a' ≤ c && c ≤ 'z'

/-- The class `[A-Za-z0-9]`. -/
def isAlnum (c : Char) : Bool :=
  isUpperAZ c || isLowerAZ c || jsIsDigit c

/-- The class `[A-Za-z0-9\-]` used by the order-number captures. -/
def isAlnumDash (c : Char) : Bool :=
  isAlnum c || c = '-'

/-- JS `\w`, the word-character class behind `\b`. -/
def isWordChar (c : Char) : Bool :=
  isAlnum c || c = '_'

/-! ## String primitives (JS `String` methods over `List Char`) -/

/-- JS `toLowerCase` on the ASCII letters the program uses. -/
def lowerStr (s : List Char) : List Char :=
  s.map Char.toLower

/-- JS `trim()`: drop whitespace from both ends. -/
def jsTrim (s : List Char) : List Char :=
  ((s.dropWhile jsIsSpace).reverse.dropWhile jsIsSpace).reverse

/-- JS `split(sep)` for a single-character separator; keeps empty segments,
and yields `[""]` on the empty string. -/
def splitOnChar (sep : Char) : List Char → List (List Char)
  | [] => [[]]
  | c :: rest =>
    if c = sep then [] :: splitOnChar sep rest
    else
      match splitOnChar sep rest with
      | [] => [[c]]
      | seg :: segs => (c :: seg) :: segs

/-- Does `s` start with `lit`? -/
def startsWith : List Char → List Char → Bool
  | _, [] => true
  | [], _ :: _ => false
  | c :: cs, d :: ds => c = d && startsWith cs ds

/-- Case-insensitive prefix test (the `i` flag on a literal). -/
def startsWithCI (s lit : List Char) : Bool :=
  startsWith (lowerStr s) lit

/-- JS `includes(needle)`. -/
def jsIncludes : List Char → List Char → Bool
  | [], needle => startsWith [] needle
  | hay@(_ :: rest), needle => startsWith hay needle || jsIncludes rest needle

/-- JS `indexOf(needle)` returning the first index, if any. -/
def indexOfSub : List Char → List Char → Option Nat
  | [], needle => if startsWith [] needle then some 0 else none
  | hay@(_ :: rest), needle =>
    if startsWith hay needle then some 0
    else (indexOfSub rest needle).map (· + 1)

/-- JS `parseInt` on a nonempty all-digit string. -/
def natOfDigits (ds : List Char) : Nat :=
  ds.foldl (fun n c => 10 * n + (c.toNat - 48)) 0

/-! ## Item parser (`parseOrderItems`, source lines 672-711) -/

/-- The structured record built for each comma-separated segment. -/
structure ParsedLineItem where
  raw : String
  name : String
  quantity : Nat
  modifications : List String
deriving Repr, DecidableEq

/-- Backtracking of `\s+` before `(.+)` in `^(\d+)\s+(.+)`: among the first
`k` characters of the whitespace run (largest `k` first, greedy), find a
suffix position whose head is not a line terminator, as `.` requires. -/
def qtyRestPos (afterDigits : List Char) : Nat → Option (List Char)
  | 0 => none
  | k + 1 =>
    match afterDigits.drop (k + 1) with
    | [] => qtyRestPos afterDigits k
    | c :: rest =>
      if isLineTerm c then qtyRestPos afterDigits k
      else some (c :: rest)

/-- The JS regex `^(\d+)\s+(.+)` used for a leading quantity: returns the
parsed integer and the second capture (the maximal run of non-line-terminator
characters after the whitespace). -/
def matchLeadingQty (s : List Char) : Option (Nat × List Char) :=
  let ds := s.takeWhile jsIsDigit
  if ds.isEmpty then none
  else
    let afterDigits := s.drop ds.length
    let wsRun := afterDigits.takeWhile jsIsSpace
    if wsRun.isEmpty then none
    else
      match qtyRestPos afterDigits wsRun.length with
      | none => none
      | some rest => some (natOfDigits ds, rest.takeWhile (fun c => !isLineTerm c))

/-- First alternative `\s+and\s+` of the modification separator, anchored at
the head; returns the remainder after the separator. -/
def matchSepAnd (s : List Char) : Option (List Char) :=
  let ws1 := s.takeWhile jsIsSpace
  if ws1.isEmpty then none
  else
    let r1 := s.drop ws1.length
    if startsWith r1 ['a', 'n', 'd'] then
      let r2 := r1.drop 3
      let ws2 := r2.takeWhile jsIsSpace
      if ws2.isEmpty then none else some (r2.drop ws2.length)
    else none

/-- Second alternative `\s*,\s*`, anchored at the head. -/
def matchSepComma (s : List Char) : Option (List Char) :=
  match (s.drop (s.takeWhile jsIsSpace).length) with
  | ',' :: r2 => some (r2.drop (r2.takeWhile jsIsSpace).length)
  | _ => none

/-- The separator regex `\s+and\s+|\s*,\s*`, first alternative preferred. -/
def matchModSep (s : List Char) : Option (List Char) :=
  match matchSepAnd s with
  | some r => some r
  | none => matchSepComma s

/-- Left-to-right scan of JS `split(/\s+and\s+|\s*,\s*/)`; fuelled because a
separator consumes several characters at once. -/
def splitModsAux : Nat → List Char → List Char → List (List Char)
  | 0, acc, _ => [acc.reverse]
  | _ + 1, acc, [] => [acc.reverse]
  | fuel + 1, acc, s@(c :: rest) =>
    match matchModSep s with
    | some rest2 => acc.reverse :: splitModsAux fuel [] rest2
    | none => splitModsAux fuel (c :: acc) rest

/-- JS `modsText.split(/\s+and\s+|\s*,\s*/)`. -/
def jsSplitMods (s : List Char) : List (List Char) :=
  splitModsAux (s.length + 1) [] s

/-- The canonicalization chain of source lines 700-707: substring containment
against the fixed vocabulary on the lowercased name, first match wins. -/
def normalizeItemName (name : String) : String :=
  let nameLower := lowerStr name.data
  if jsIncludes nameLower "bruschetta".data then "Bruschetta"
  else if jsIncludes nameLower "wing".data then
    if jsIncludes nameLower "1lb".data || jsIncludes nameLower "one lb".data then
      "1lb Wings"
    else "2lb Wings"
  else if jsIncludes nameLower "quesadilla".data then "Quesadilla"
  else if jsIncludes nameLower "burger".data then "Angus Burger"
  else if jsIncludes nameLower "caesar".data then "Caesar Salad"
  else if jsIncludes nameLower "garlic bread".data then "Garlic Bread W/cheese"
  else name

/-- The per-segment body of the `items.map` in `parseOrderItems`; the argument
is the already-trimmed segment. -/
def parseSegment (item0 : List Char) : ParsedLineItem :=
  let quantityItem :=
    match matchLeadingQty item0 with
    | some (q, rest) => (q, rest)
    | none => (1, item0)
  let item1 := quantityItem.2
  let nameMods :=
    match indexOfSub (lowerStr item1) " with ".data with
    | some wi =>
      (jsTrim (item1.take wi),
        (jsSplitMods (jsTrim (item1.drop (wi + 6)))).map jsTrim)
    | none => (jsTrim item1, [])
  { raw := String.mk item0
    name := normalizeItemName (String.mk nameMods.1)
    quantity := quantityItem.1
    modifications := nameMods.2.map String.mk }

/-- The function `parseOrderItems`: split on commas, trim each segment, parse each. -/
def parseOrderItems (orderItemsString : String) : List ParsedLineItem :=
  let items := (splitOnChar ',' orderItemsString.data).map jsTrim
  items.map parseSegment

/-! ## Guest information (`fillGuestInfo`, source lines 416-454) -/

/-- The constant `CONFIG.botLastName`, the fixed bot identifier typed as the last name. -/
def botLastName : String := "PAM"

/-- The constant `CONFIG.botEmail`, the fixed address typed into the email field. -/
def botEmail : String := "yousef.alyeldin5@gmial.com"

/-- JS `customerName.split(' ')[0]`: the part before the first space character. -/
def guestFirstName (customerName : String) : String :=
  String.mk ((splitOnChar ' ' customerName.data).headD [])

/-- JS `customerPhone.replace(/\D/g, '')`: keep only the digits. -/
def cleanPhone (customerPhone : String) : String :=
  String.mk (customerPhone.data.filter jsIsDigit)

/-- Which of the four guest-form inputs the page query finds. -/
structure GuestFields where
  firstName : Bool
  lastName : Bool
  email : Bool
  phone : Bool
deriving Repr, DecidableEq

/-- The values typed into the four guest-form inputs. -/
structure GuestFormEntry where
  firstName : String
  lastName : String
  email : String
  phone : String
deriving Repr, DecidableEq

/-- The function `fillGuestInfo`: derive the field values, then fill the four inputs in
order, throwing (with the function's wrapper message) at the first missing
input. -/
def fillGuestInfo (customerName customerPhone : String) (fields : GuestFields) :
    Except String GuestFormEntry :=
  let firstName := guestFirstName customerName
  let lastName := botLastName
  let phone := cleanPhone customerPhone
  if !fields.firstName then
    Except.error "Failed to fill guest info: First name field not found"
  else if !fields.lastName then
    Except.error "Failed to fill guest info: Last name field not found"
  else if !fields.email then
    Except.error "Failed to fill guest info: Email field not found"
  else if !fields.phone then
    Except.error "Failed to fill guest info: Phone field not found"
  else Except.ok ⟨firstName, lastName, botEmail, phone⟩

/-- Modelled from the spec: "derives firstName as the first
whitespace-delimited token of the supplied customer name" — the first maximal
run of non-whitespace characters. -/
def specFirstWhitespaceToken (customerName : String) : String :=
  String.mk ((customerName.data.dropWhile jsIsSpace).takeWhile (fun c => !jsIsSpace c))

/-! ## Cart builder (`addItemsToCart`, source lines 161-190)

The per-item browser work (`findAndClickItem`, `handleItemModal`,
`clickAddToCart`) is a page effect; it is modelled as an oracle giving, for
each position and item, either success or the message of the error thrown.
The loop body's `catch` re-throws with the wrapper message, which aborts the
whole loop at the first failing item. -/

/-- The `for` loop of `addItemsToCart`: returns the items attempted in order
(with their positions) and the loop's outcome. -/
def addItemsLoop (stepResult : Nat → ParsedLineItem → Except String Unit) :
    Nat → List ParsedLineItem → List (Nat × ParsedLineItem) × Except String Unit
  | _, [] => ([], Except.ok ())
  | i, item :: rest =>
    match stepResult i item with
    | Except.ok _ =>
      let tail := addItemsLoop stepResult (i + 1) rest
      ((i, item) :: tail.1, tail.2)
    | Except.error msg =>
      ([(i, item)],
        Except.error ("Failed to add " ++ item.name ++ " to cart: " ++ msg))

/-- The function `addItemsToCart`: parse the raw order string and add each item in order,
fail-fast. -/
def addItemsToCart (stepResult : Nat → ParsedLineItem → Except String Unit)
    (orderItems : String) : List (Nat × ParsedLineItem) × Except String Unit :=
  addItemsLoop stepResult 0 (parseOrderItems orderItems)

/-! ## Confirmation extraction (`extractConfirmationDetails`, lines 582-646)

Each JS regex is modelled by an anchored matcher (`Option Char` is the
character before the match position, for `\b`) plus a left-to-right scan,
which is JS `String.match` semantics for a non-global regex. -/

/-- Anchored `/Order Number:\s*([A-Za-z0-9\-]+)/i`. -/
def tryOrderNum1 (_ : Option Char) (s : List Char) : Option (List Char) :=
  if startsWithCI s "order number:".data then
    let cap := ((s.drop 13).dropWhile jsIsSpace).takeWhile isAlnumDash
    if cap.isEmpty then none else some cap
  else none

/-- Anchored `/Order\s*#?\s*:?\s*([A-Za-z0-9\-]+)/i`. -/
def tryOrderNum2 (_ : Option Char) (s : List Char) : Option (List Char) :=
  if startsWithCI s "order".data then
    let r1 := (s.drop 5).dropWhile jsIsSpace
    let r2 := match r1 with
      | '#' :: t => t.dropWhile jsIsSpace
      | _ => r1
    let r3 := match r2 with
      | ':' :: t => t.dropWhile jsIsSpace
      | _ => r2
    let cap := r3.takeWhile isAlnumDash
    if cap.isEmpty then none else some cap
  else none

/-- Anchored `/#([A-Za-z0-9]{5,})/`. -/
def tryOrderNum3 (_ : Option Char) (s : List Char) : Option (List Char) :=
  match s with
  | '#' :: t =>
    let cap := t.takeWhile isAlnum
    if cap.length ≥ 5 then some cap else none
  | _ => none

/-- The pattern `[A-Z][a-z]+\b` anchored at the head of `s`: an uppercase letter, a
greedy nonempty lowercase run, then a non-word character or the end. -/
def tryCapWordAt : List Char → Option (List Char)
  | [] => none
  | c :: rest =>
    if isUpperAZ c then
      let lows := rest.takeWhile isLowerAZ
      if lows.isEmpty then none
      else
        match rest.drop lows.length with
        | [] => some (c :: lows)
        | d :: _ => if isWordChar d then none else some (c :: lows)
    else none

/-- Anchored `/\b([A-Z][a-z]+)\b/`, the catch-all capitalized-word pattern. -/
def tryOrderNum4 (prev : Option Char) (s : List Char) : Option (List Char) :=
  let boundaryOk := match prev with
    | none => true
    | some c => !isWordChar c
  if boundaryOk then tryCapWordAt s else none

/-- Scan left to right for the first position where the anchored matcher
fires, tracking the previous character for word boundaries. -/
def scanForMatch (tryAt : Option Char → List Char → Option (List Char)) :
    Option Char → List Char → Option (List Char)
  | prev, [] => tryAt prev []
  | prev, c :: rest =>
    match tryAt prev (c :: rest) with
    | some cap => some cap
    | none => scanForMatch tryAt (some c) rest

/-- JS `text.match(pattern)` restricted to the first capture. -/
def firstMatch (tryAt : Option Char → List Char → Option (List Char))
    (s : List Char) : Option (List Char) :=
  scanForMatch tryAt none s

/-- The `orderNumberPatterns` loop: first pattern with a match wins. -/
def findOrderNumber (s : List Char) : Option (List Char) :=
  match firstMatch tryOrderNum1 s with
  | some cap => some cap
  | none =>
    match firstMatch tryOrderNum2 s with
    | some cap => some cap
    | none =>
      match firstMatch tryOrderNum3 s with
      | some cap => some cap
      | none => firstMatch tryOrderNum4 s

/-- The tail `\d*\s*minutes?` of the pickup patterns, anchored; returns the
consumed characters. -/
def matchMinutesTail (s : List Char) : Option (List Char) :=
  let d2 := s.takeWhile jsIsDigit
  let r := s.drop d2.length
  let ws := r.takeWhile jsIsSpace
  let r2 := r.drop ws.length
  if startsWithCI r2 "minute".data then
    let consumed := d2 ++ ws ++ r2.take 6
    match r2.drop 6 with
    | c :: _ => if c = 's' || c = 'S' then some (consumed ++ [c]) else some consumed
    | [] => some consumed
  else none

/-- Anchored `/(\d+[-\s]?\d*\s*minutes?)/i`; the optional `[-\s]` is taken
greedily, backing off to the empty alternative. -/
def tryPickup1 (_ : Option Char) (s : List Char) : Option (List Char) :=
  let d1 := s.takeWhile jsIsDigit
  if d1.isEmpty then none
  else
    let r := s.drop d1.length
    let withOpt :=
      match r with
      | c :: rest =>
        if c = '-' || jsIsSpace c then
          (matchMinutesTail rest).map (fun t => d1 ++ c :: t)
        else none
      | [] => none
    match withOpt with
    | some cap => some cap
    | none => (matchMinutesTail r).map (fun t => d1 ++ t)

/-- Anchored `/Approximately\s+(\d+[-\s]?\d*\s*minutes?)/i`; the capture is
the inner group only. -/
def tryPickup2 (_ : Option Char) (s : List Char) : Option (List Char) :=
  if startsWithCI s "approximately".data then
    let r := s.drop 13
    let ws := r.takeWhile jsIsSpace
    if ws.isEmpty then none else tryPickup1 none (r.drop ws.length)
  else none

/-- Anchored `/(\d+:\d+\s*[AP]M)/i`. -/
def tryPickup3 (_ : Option Char) (s : List Char) : Option (List Char) :=
  let d1 := s.takeWhile jsIsDigit
  if d1.isEmpty then none
  else
    match s.drop d1.length with
    | ':' :: r =>
      let d2 := r.takeWhile jsIsDigit
      if d2.isEmpty then none
      else
        let r2 := r.drop d2.length
        let ws := r2.takeWhile jsIsSpace
        match r2.drop ws.length with
        | a :: m :: _ =>
          if (a = 'A' || a = 'a' || a = 'P' || a = 'p') && (m = 'M' || m = 'm') then
            some (d1 ++ ':' :: (d2 ++ ws ++ [a, m]))
          else none
        | _ => none
    | _ => none

/-- The `pickupPatterns` loop. -/
def findPickupTime (s : List Char) : Option (List Char) :=
  match firstMatch tryPickup1 s with
  | some cap => some cap
  | none =>
    match firstMatch tryPickup2 s with
    | some cap => some cap
    | none => firstMatch tryPickup3 s

/-- Anchored `/Total[:\s]+\$?([\d,]+\.?\d*)/i`. -/
def tryTotal1 (_ : Option Char) (s : List Char) : Option (List Char) :=
  if startsWithCI s "total".data then
    let r := s.drop 5
    let sep := r.takeWhile (fun c => c = ':' || jsIsSpace c)
    if sep.isEmpty then none
    else
      let r1 := r.drop sep.length
      let r2 := match r1 with
        | '$' :: t => t
        | _ => r1
      let digs := r2.takeWhile (fun c => jsIsDigit c || c = ',')
      if digs.isEmpty then none
      else
        match r2.drop digs.length with
        | '.' :: t => some (digs ++ '.' :: t.takeWhile jsIsDigit)
        | _ => some digs
  else none

/-- The tail `\s*$` under the `m` flag: some run of whitespace reaches the end of the
text or a position just before a line terminator. -/
def lineEndAfterWs : List Char → Bool
  | [] => true
  | c :: rest =>
    if isLineTerm c then true
    else if jsIsSpace c then lineEndAfterWs rest
    else false

/-- Anchored `/\$(\d+\.\d{2})\s*$/m`. -/
def tryTotal2 (_ : Option Char) (s : List Char) : Option (List Char) :=
  match s with
  | '$' :: r =>
    let d1 := r.takeWhile jsIsDigit
    if d1.isEmpty then none
    else
      match r.drop d1.length with
      | '.' :: a :: b :: rest =>
        if jsIsDigit a && jsIsDigit b && lineEndAfterWs rest then
          some (d1 ++ '.' :: [a, b])
        else none
      | _ => none
  | _ => none

/-- The `totalPatterns` loop. -/
def findTotal (s : List Char) : Option (List Char) :=
  match firstMatch tryTotal1 s with
  | some cap => some cap
  | none => firstMatch tryTotal2 s

/-! ## OrderResult and the `placeOrder` pipeline (source lines 27-156) -/

/-- The caller-visible result record (the diagnostics/screenshot list, which
no claim concerns, is omitted). -/
structure OrderResult where
  success : Bool
  confirmationNumber : Option String
  estimatedPickupTime : Option String
  totalAmount : Option String
  error : Option String
deriving Repr, DecidableEq

/-- The `orderResult` initializer at the top of `placeOrder`. -/
def initOrderResult : OrderResult :=
  { success := false
    confirmationNumber := none
    estimatedPickupTime := none
    totalAmount := none
    error := none }

/-- JS falsiness of the nullable string fields checked before the sentinel
defaults: `null` and the empty string are falsy. -/
def strFalsy : Option String → Bool
  | none => true
  | some s => s.data.isEmpty

/-- The pure part of `extractConfirmationDetails`, applied to the retrieved
page text: pattern loops, then sentinel defaults for the falsy fields. -/
def extractFromText (pageText : List Char) (r : OrderResult) : OrderResult :=
  let c1 := match findOrderNumber pageText with
    | some cap => some (String.mk cap)
    | none => r.confirmationNumber
  let c2 := if strFalsy c1 then some "ORDER_PLACED_NO_NUMBER" else c1
  let p1 := match findPickupTime pageText with
    | some cap => some (String.mk cap)
    | none => r.estimatedPickupTime
  let p2 := if strFalsy p1 then some "30-40 minutes" else p1
  let t1 := match findTotal pageText with
    | some cap => some ("$" ++ String.mk cap)
    | none => r.totalAmount
  { r with confirmationNumber := c2, estimatedPickupTime := p2, totalAmount := t1 }

/-- The function `extractConfirmationDetails`: the body is wrapped in a `try` whose `catch`
only logs, so a throwing page-text retrieval leaves the result unchanged. -/
def extractConfirmationDetails (pageText : Except String String) (r : OrderResult) :
    OrderResult :=
  match pageText with
  | Except.error _ => r
  | Except.ok t => extractFromText t.data r

/-- The order request handed to `placeOrder` (the ignored `pickup_time` field
is omitted). -/
structure OrderRequest where
  order_items : String
  customer_name : String
  customer_phone : String
  special_instructions : String

/-- Outcomes of the browser interactions the pipeline performs, in pipeline
order.  `addPickupNotes`, `verifyPaymentMethod` and `takeScreenshot` swallow
their own failures in the source and so need no outcome here. -/
structure PipelineEnv where
  navigate : Except String Unit
  itemStep : Nat → ParsedLineItem → Except String Unit
  checkoutClick : Except String Unit
  guestClick : Except String Unit
  guestFields : GuestFields
  guestSubmit : Except String Unit
  placeFinal : Except String Unit
  confirmationText : Except String String

/-- The function `placeOrder`: run the pipeline steps in order; the first thrown message is
caught and stored in `error` with `success` still `false`; when every step
succeeds, extraction runs and `success` is set `true`. -/
def placeOrder (req : OrderRequest) (env : PipelineEnv) : OrderResult :=
  match env.navigate with
  | Except.error m => { initOrderResult with error := some m }
  | Except.ok _ =>
    match (addItemsToCart env.itemStep req.order_items).2 with
    | Except.error m => { initOrderResult with error := some m }
    | Except.ok _ =>
      match env.checkoutClick with
      | Except.error m =>
        { initOrderResult with error := some ("Failed to click checkout: " ++ m) }
      | Except.ok _ =>
        match env.guestClick with
        | Except.error m =>
          { initOrderResult with error := some ("Failed to continue as guest: " ++ m) }
        | Except.ok _ =>
          match fillGuestInfo req.customer_name req.customer_phone env.guestFields with
          | Except.error m => { initOrderResult with error := some m }
          | Except.ok _ =>
            match env.guestSubmit with
            | Except.error m =>
              { initOrderResult with error := some ("Failed to submit guest form: " ++ m) }
            | Except.ok _ =>
              match env.placeFinal with
              | Except.error m =>
                { initOrderResult with error := some ("Failed to place order: " ++ m) }
              | Except.ok _ =>
                let r := extractConfirmationDetails env.confirmationText initOrderResult
                { r with success := true }

/-! ## Auxiliary definitions for the statements -/

/-- Does the (already trimmed) raw segment carry an explicit leading quantity
token whose numeric value is zero? -/
def qtyTokenIsZero (raw : String) : Bool :=
  match matchLeadingQty raw.data with
  | some (q, _) => q == 0
  | none => false

/-- Shape of the capture of the catch-all pattern `\b([A-Z][a-z]+)\b`. -/
def capWordShape (w : List Char) : Prop :=
  ∃ c ls, w = c :: ls ∧ isUpperAZ c = true ∧ ls ≠ [] ∧ ∀ x ∈ ls, isLowerAZ x = true

/-- A per-item oracle that fails on the second item with the message
`findAndClickItem` throws. -/
def demoStep : Nat → ParsedLineItem → Except String Unit :=
  fun i it =>
    if i = 1 then Except.error ("Could not find menu item: " ++ it.name)
    else Except.ok ()

/-- A per-item oracle in which every addition succeeds. -/
def allOkItemStep : Nat → ParsedLineItem → Except String Unit :=
  fun _ _ => Except.ok ()

/-- The sample order of the repository's test harness. -/
def sampleRequest : OrderRequest :=
  { order_items := "bruschetta"
    customer_name := "John Smith"
    customer_phone := "416-555-1234"
    special_instructions := "" }

/-- An environment in which every browser step succeeds but the read of the
confirmation-page text itself throws (the `page.evaluate` call inside
`extractConfirmationDetails`). -/
def envTextRetrievalThrew : PipelineEnv :=
  { navigate := Except.ok ()
    itemStep := allOkItemStep
    checkoutClick := Except.ok ()
    guestClick := Except.ok ()
    guestFields := ⟨true, true, true, true⟩
    guestSubmit := Except.ok ()
    placeFinal := Except.ok ()
    confirmationText := Except.error "Execution context was destroyed" }

/-- An environment in which every step succeeds and the confirmation page
shows only text that no extraction pattern matches. -/
def envAllOk : PipelineEnv :=
  { navigate := Except.ok ()
    itemStep := allOkItemStep
    checkoutClick := Except.ok ()
    guestClick := Except.ok ()
    guestFields := ⟨true, true, true, true⟩
    guestSubmit := Except.ok ()
    placeFinal := Except.ok ()
    confirmationText := Except.ok "!" }

/-! ## Theorems -/

/-- C1: for every input string whose comma-split yields N segments,
`parseOrderItems` returns exactly N `ParsedLineItem` records, in segment
order, the i-th obtained from the i-th (trimmed) segment. -/
theorem parseOrderItems_one_item_per_segment (s : String) :
    (parseOrderItems s).length = (splitOnChar ',' s.data).length ∧
    ∀ i : Nat, (parseOrderItems s)[i]? =
      ((splitOnChar ',' s.data)[i]?).map (fun seg => parseSegment (jsTrim seg)) := by
  refine ⟨by simp [parseOrderItems], fun i => ?_⟩
  simp [parseOrderItems, List.getElem?_map, Option.map_map]
  rfl

/-- C6: parsing `"2 burgers with no onion and extra sauce"` yields one item,
canonical name `"Angus Burger"`, quantity 2, modifications
`["no onion", "extra sauce"]`. -/
theorem parseOrderItems_scenario_b :
    parseOrderItems "2 burgers with no onion and extra sauce" =
      [{ raw := "2 burgers with no onion and extra sauce"
         name := "Angus Burger"
         quantity := 2
         modifications := ["no onion", "extra sauce"] }] := rfl

/-- C8: canonicalization is idempotent on each name of the canonical
vocabulary. -/
theorem normalizeItemName_idempotent_on_vocabulary :
    normalizeItemName "Bruschetta" = "Bruschetta" ∧
    normalizeItemName "1lb Wings" = "1lb Wings" ∧
    normalizeItemName "2lb Wings" = "2lb Wings" ∧
    normalizeItemName "Quesadilla" = "Quesadilla" ∧
    normalizeItemName "Angus Burger" = "Angus Burger" ∧
    normalizeItemName "Caesar Salad" = "Caesar Salad" ∧
    normalizeItemName "Garlic Bread W/cheese" = "Garlic Bread W/cheese" :=
  ⟨rfl, rfl, rfl, rfl, rfl, rfl, rfl⟩

/-- C5 counterexample: the segment `"0 burgers"` parses to an item with
quantity 0, so the invariant "quantity ≥ 1 for every input" fails. -/
theorem parse_quantity_zero_counterexample :
    parseOrderItems "0 burgers" =
      [{ raw := "0 burgers", name := "Angus Burger", quantity := 0,
         modifications := [] }] ∧
    ¬ ∀ it ∈ parseOrderItems "0 burgers", 1 ≤ it.quantity :=
  ⟨rfl, by decide⟩

/-- Quantity of a parsed segment: 1 unless an explicit leading zero token was
extracted. -/
theorem parseSegment_quantity_pos_iff (l : List Char) :
    1 ≤ (parseSegment l).quantity ↔ qtyTokenIsZero (parseSegment l).raw = false := by
  have hraw : (parseSegment l).raw = String.mk l := rfl
  rw [hraw]
  show 1 ≤ (parseSegment l).quantity ↔ qtyTokenIsZero (String.mk l) = false
  unfold parseSegment qtyTokenIsZero
  cases h : matchLeadingQty l with
  | none => simp [h]
  | some p =>
    cases p with
    | mk q rest => simp only [h]; cases q <;> simp

/-- C5 (amended): every parsed item has a well-defined (never-null)
modifications list, and its quantity is at least 1 unless the segment's
explicit leading integer token is zero, in which case the quantity is that
zero. -/
theorem parse_quantity_ge_one (s : String) :
    ∀ it ∈ parseOrderItems s,
      (1 ≤ it.quantity ↔ qtyTokenIsZero it.raw = false) := by
  intro it hit
  simp only [parseOrderItems, List.mem_map] at hit
  obtain ⟨seg, _, rfl⟩ := hit
  exact parseSegment_quantity_pos_iff seg

/-- C5 witness. -/
theorem parse_quantity_ge_one_witness :
    (parseSegment "bruschetta".data ∈ parseOrderItems "bruschetta") ∧
    (1 ≤ (parseSegment "bruschetta".data).quantity ↔
      qtyTokenIsZero (parseSegment "bruschetta".data).raw = false) :=
  ⟨by decide, parse_quantity_ge_one "bruschetta" (parseSegment "bruschetta".data) (by decide)⟩

/-- C4 counterexample: for the customer name `"John\tSmith"` (tab-separated),
the guest fill types the whole string as the first name, while the first
whitespace-delimited token is `"John"`. -/
theorem guest_first_name_counterexample :
    fillGuestInfo "John\tSmith" "416-555-1234" ⟨true, true, true, true⟩ =
      Except.ok ⟨"John\tSmith", "PAM", botEmail, "4165551234"⟩ ∧
    specFirstWhitespaceToken "John\tSmith" = "John" ∧
    ("John\tSmith" : String) ≠ "John" :=
  ⟨rfl, rfl, by decide⟩

/-- C4 (amended): whenever the guest fill succeeds, the typed first name is
the part of the customer name before the first space character, the typed
last name is the fixed literal `"PAM"`, the typed email is the fixed bot
address, and the typed phone is the input with all non-digits removed. -/
theorem fillGuestInfo_derived_values (name phone : String) (fields : GuestFields)
    (e : GuestFormEntry) (h : fillGuestInfo name phone fields = Except.ok e) :
    e.firstName = guestFirstName name ∧ e.lastName = botLastName ∧
    e.email = botEmail ∧ e.phone = cleanPhone phone := by
  unfold fillGuestInfo at h
  split at h
  · cases h
  · split at h
    · cases h
    · split at h
      · cases h
      · split at h
        · cases h
        · injection h with h2
          subst h2
          exact ⟨rfl, rfl, rfl, rfl⟩

/-- C4 witness: scenario A of the spec. -/
theorem fillGuestInfo_derived_values_witness :
    fillGuestInfo "John Smith" "416-555-1234" ⟨true, true, true, true⟩ =
      Except.ok ⟨"John", "PAM", botEmail, "4165551234"⟩ ∧
    ((GuestFormEntry.mk "John" "PAM" botEmail "4165551234").firstName =
        guestFirstName "John Smith" ∧
      (GuestFormEntry.mk "John" "PAM" botEmail "4165551234").lastName = botLastName ∧
      (GuestFormEntry.mk "John" "PAM" botEmail "4165551234").email = botEmail ∧
      (GuestFormEntry.mk "John" "PAM" botEmail "4165551234").phone =
        cleanPhone "416-555-1234") :=
  ⟨rfl, fillGuestInfo_derived_values "John Smith" "416-555-1234"
    ⟨true, true, true, true⟩ ⟨"John", "PAM", botEmail, "4165551234"⟩ rfl⟩

/-- C10 counterexample: `"bruschetta wings"` contains `wing` and neither
`1lb` nor `one lb`, yet canonicalizes to `"Bruschetta"` because the
`bruschetta` rule is checked first. -/
theorem normalize_wings_counterexample :
    jsIncludes (lowerStr "bruschetta wings".data) "wing".data = true ∧
    jsIncludes (lowerStr "bruschetta wings".data) "1lb".data = false ∧
    jsIncludes (lowerStr "bruschetta wings".data) "one lb".data = false ∧
    normalizeItemName "bruschetta wings" = "Bruschetta" ∧
    normalizeItemName "bruschetta wings" ≠ "2lb Wings" :=
  ⟨rfl, rfl, rfl, rfl, by decide⟩

/-- C10 (amended): a name containing `wing` but neither `bruschetta`, `1lb`
nor `one lb` canonicalizes to `"2lb Wings"`; in particular bare `wings`
maps to the 2lb item. -/
theorem normalize_wing_defaults_to_2lb (name : String)
    (hw : jsIncludes (lowerStr name.data) "wing".data = true)
    (hb : jsIncludes (lowerStr name.data) "bruschetta".data = false)
    (h1 : jsIncludes (lowerStr name.data) "1lb".data = false)
    (h2 : jsIncludes (lowerStr name.data) "one lb".data = false) :
    normalizeItemName name = "2lb Wings" := by
  simp [normalizeItemName, hw, hb, h1, h2]

/-- C10 witness: the bare input `wings`. -/
theorem normalize_wing_defaults_to_2lb_witness :
    (jsIncludes (lowerStr "wings".data) "wing".data = true ∧
      jsIncludes (lowerStr "wings".data) "bruschetta".data = false ∧
      jsIncludes (lowerStr "wings".data) "1lb".data = false ∧
      jsIncludes (lowerStr "wings".data) "one lb".data = false) ∧
    normalizeItemName "wings" = "2lb Wings" :=
  ⟨⟨rfl, rfl, rfl, rfl⟩, normalize_wing_defaults_to_2lb "wings" rfl rfl rfl rfl⟩

/-- Members of `enumFrom` carry indices below the starting index plus the
list length. -/
theorem mem_enumFrom_fst_lt {α : Type} :
    ∀ (l : List α) (n : Nat) (p : Nat × α), p ∈ l.enumFrom n → p.1 < n + l.length := by
  intro l
  induction l with
  | nil => intro n p hp; cases hp
  | cons a rest ih =>
    intro n p hp
    cases hp with
    | head => simp
    | tail _ hp2 =>
      have := ih (n + 1) p hp2
      simp only [List.length_cons]
      omega

/-- The cart loop, started at index `i`, with the first `k` items succeeding
and item `k` failing, attempts exactly the first `k + 1` items and aborts
with the wrapped message of item `k`. -/
theorem addItemsLoop_fail_fast (stepResult : Nat → ParsedLineItem → Except String Unit) :
    ∀ (items : List ParsedLineItem) (i k : Nat) (hk : k < items.length) (msg : String),
      (∀ j (hj : j < k), stepResult (i + j) (items.get ⟨j, lt_trans hj hk⟩) = Except.ok ()) →
      stepResult (i + k) (items.get ⟨k, hk⟩) = Except.error msg →
      addItemsLoop stepResult i items =
        ((items.take (k + 1)).enumFrom i,
          Except.error ("Failed to add " ++ (items.get ⟨k, hk⟩).name ++ " to cart: " ++ msg)) := by
  intro items
  induction items with
  | nil =>
    intro i k hk
    exact absurd hk (by simp)
  | cons it rest ih =>
    intro i k hk msg hok hfail
    cases k with
    | zero =>
      have h0 : stepResult i it = Except.error msg := by simpa using hfail
      simp [addItemsLoop, h0, List.enumFrom]
    | succ k2 =>
      have h0 : stepResult i it = Except.ok () := by
        have := hok 0 (Nat.succ_pos k2)
        simpa using this
      have hk2 : k2 < rest.length := by
        have := hk
        simp only [List.length_cons] at this
        omega
      have hok2 : ∀ j (hj : j < k2),
          stepResult ((i + 1) + j) (rest.get ⟨j, lt_trans hj hk2⟩) = Except.ok () := by
        intro j hj
        have := hok (j + 1) (Nat.succ_lt_succ hj)
        rw [show i + (j + 1) = (i + 1) + j by omega] at this
        simpa using this
      have hfail2 : stepResult ((i + 1) + k2) (rest.get ⟨k2, hk2⟩) = Except.error msg := by
        have := hfail
        rw [show i + (k2 + 1) = (i + 1) + k2 by omega] at this
        simpa using this
      have ihres := ih (i + 1) k2 hk2 msg hok2 hfail2
      simp [addItemsLoop, h0, ihres, List.enumFrom]

/-- C3: if, on the parsed order, items before position k are addable and the
addition of item k fails, `addItemsToCart` attempts exactly items 0..k in
order, aborts with the failure message naming item k, and attempts no item
beyond position k. -/
theorem addItemsToCart_fail_fast
    (stepResult : Nat → ParsedLineItem → Except String Unit) (orderItems : String)
    (k : Nat) (msg : String) (hk : k < (parseOrderItems orderItems).length)
    (hok : ∀ j (hj : j < k),
      stepResult j ((parseOrderItems orderItems).get ⟨j, lt_trans hj hk⟩) = Except.ok ())
    (hfail : stepResult k ((parseOrderItems orderItems).get ⟨k, hk⟩) = Except.error msg) :
    (addItemsToCart stepResult orderItems).1 =
      ((parseOrderItems orderItems).take (k + 1)).enum ∧
    (addItemsToCart stepResult orderItems).2 =
      Except.error ("Failed to add " ++ ((parseOrderItems orderItems).get ⟨k, hk⟩).name
        ++ " to cart: " ++ msg) ∧
    ∀ p ∈ (addItemsToCart stepResult orderItems).1, p.1 ≤ k := by
  have hok0 : ∀ j (hj : j < k),
      stepResult (0 + j) ((parseOrderItems orderItems).get ⟨j, lt_trans hj hk⟩) =
        Except.ok () := by
    intro j hj
    rw [Nat.zero_add]
    exact hok j hj
  have hfail0 : stepResult (0 + k) ((parseOrderItems orderItems).get ⟨k, hk⟩) =
      Except.error msg := by
    rw [Nat.zero_add]; exact hfail
  have hmain := addItemsLoop_fail_fast stepResult (parseOrderItems orderItems) 0 k hk msg
    hok0 hfail0
  have h1 : (addItemsToCart stepResult orderItems).1 =
      ((parseOrderItems orderItems).take (k + 1)).enumFrom 0 := by
    unfold addItemsToCart
    rw [hmain]
  refine ⟨h1, ?_, ?_⟩
  · unfold addItemsToCart
    rw [hmain]
  · intro p hp
    rw [h1] at hp
    have := mem_enumFrom_fst_lt _ 0 p hp
    have hlen : ((parseOrderItems orderItems).take (k + 1)).length ≤ k + 1 := by
      simp [List.length_take]
    omega

/-- C3 witness: a three-item order whose second item cannot be found. -/
theorem addItemsToCart_fail_fast_witness :
    (addItemsToCart demoStep "bruschetta, 1lb wings, quesadilla").1 =
      ((parseOrderItems "bruschetta, 1lb wings, quesadilla").take 2).enum ∧
    (addItemsToCart demoStep "bruschetta, 1lb wings, quesadilla").2 =
      Except.error "Failed to add 1lb Wings to cart: Could not find menu item: 1lb Wings" ∧
    ∀ p ∈ (addItemsToCart demoStep "bruschetta, 1lb wings, quesadilla").1, p.1 ≤ 1 :=
  addItemsToCart_fail_fast demoStep "bruschetta, 1lb wings, quesadilla" 1
    "Could not find menu item: 1lb Wings" (by decide)
    (fun j hj => by
      have hj0 : j = 0 := by omega
      subst hj0
      rfl)
    rfl

/-- Extraction never touches the `error` field. -/
theorem extractConfirmationDetails_error (pt : Except String String) (r : OrderResult) :
    (extractConfirmationDetails pt r).error = r.error := by
  cases pt <;> rfl

/-- Extraction never touches the `success` field. -/
theorem extractConfirmationDetails_success (pt : Except String String) (r : OrderResult) :
    (extractConfirmationDetails pt r).success = r.success := by
  cases pt <;> rfl

/-- C7: the result's `error` is null exactly when `success` is true — every
failing run stores the thrown message, every successful run leaves `error`
null. -/
theorem placeOrder_error_iff_not_success (req : OrderRequest) (env : PipelineEnv) :
    (placeOrder req env).error.isNone = (placeOrder req env).success := by
  unfold placeOrder
  cases env.navigate with
  | error m => rfl
  | ok u1 =>
    cases (addItemsToCart env.itemStep req.order_items).2 with
    | error m => rfl
    | ok u2 =>
      cases env.checkoutClick with
      | error m => rfl
      | ok u3 =>
        cases env.guestClick with
        | error m => rfl
        | ok u4 =>
          cases fillGuestInfo req.customer_name req.customer_phone env.guestFields with
          | error m => rfl
          | ok e =>
            cases env.guestSubmit with
            | error m => rfl
            | ok u5 =>
              cases env.placeFinal with
              | error m => rfl
              | ok u6 =>
                show (extractConfirmationDetails env.confirmationText
                    initOrderResult).error.isNone = true
                rw [extractConfirmationDetails_error]
                rfl

/-- C2 counterexample: when every pipeline step succeeds but the read of the
confirmation-page text throws (swallowed by the extractor's catch), the run
finishes with `success = true` while both `confirmationNumber` and
`estimatedPickupTime` are still null. -/
theorem success_with_null_confirmation_counterexample :
    (placeOrder sampleRequest envTextRetrievalThrew).success = true ∧
    (placeOrder sampleRequest envTextRetrievalThrew).confirmationNumber = none ∧
    (placeOrder sampleRequest envTextRetrievalThrew).estimatedPickupTime = none :=
  ⟨rfl, rfl, rfl⟩

/-- C2 (amended): whenever the pipeline finishes with `success = true` and the
confirmation-page text was retrieved, `confirmationNumber` and
`estimatedPickupTime` are non-null; if no order-number pattern matches the
text, `confirmationNumber` is the sentinel `ORDER_PLACED_NO_NUMBER`, and if
no pickup-time pattern matches, `estimatedPickupTime` is the default
`30-40 minutes`. -/
theorem placeOrder_success_extraction_defaults (req : OrderRequest) (env : PipelineEnv)
    (t : String) (htext : env.confirmationText = Except.ok t)
    (hs : (placeOrder req env).success = true) :
    (placeOrder req env).confirmationNumber ≠ none ∧
    (placeOrder req env).estimatedPickupTime ≠ none ∧
    (findOrderNumber t.data = none →
      (placeOrder req env).confirmationNumber = some "ORDER_PLACED_NO_NUMBER") ∧
    (findPickupTime t.data = none →
      (placeOrder req env).estimatedPickupTime = some "30-40 minutes") := by
  revert hs
  unfold placeOrder
  cases env.navigate with
  | error m => intro hs; simp [initOrderResult] at hs
  | ok u1 =>
    cases (addItemsToCart env.itemStep req.order_items).2 with
    | error m => intro hs; simp [initOrderResult] at hs
    | ok u2 =>
      cases env.checkoutClick with
      | error m => intro hs; simp [initOrderResult] at hs
      | ok u3 =>
        cases env.guestClick with
        | error m => intro hs; simp [initOrderResult] at hs
        | ok u4 =>
          cases fillGuestInfo req.customer_name req.customer_phone env.guestFields with
          | error m => intro hs; simp [initOrderResult] at hs
          | ok e =>
            cases env.guestSubmit with
            | error m => intro hs; simp [initOrderResult] at hs
            | ok u5 =>
              cases env.placeFinal with
              | error m => intro hs; simp [initOrderResult] at hs
              | ok u6 =>
                intro hs
                rw [htext]
                show (extractFromText t.data initOrderResult).confirmationNumber ≠ none ∧
                  (extractFromText t.data initOrderResult).estimatedPickupTime ≠ none ∧
                  (findOrderNumber t.data = none →
                    (extractFromText t.data initOrderResult).confirmationNumber =
                      some "ORDER_PLACED_NO_NUMBER") ∧
                  (findPickupTime t.data = none →
                    (extractFromText t.data initOrderResult).estimatedPickupTime =
                      some "30-40 minutes")
                unfold extractFromText
                cases hfo : findOrderNumber t.data with
                | none =>
                  cases hfp : findPickupTime t.data with
                  | none => simp [strFalsy, initOrderResult]
                  | some cp =>
                    simp only [strFalsy, initOrderResult]
                    refine ⟨by simp, by split <;> simp, by simp, by simp [hfp]⟩
                | some co =>
                  cases hfp : findPickupTime t.data with
                  | none =>
                    simp only [strFalsy, initOrderResult]
                    refine ⟨by split <;> simp, by simp, by simp [hfo], by simp⟩
                  | some cp =>
                    simp only [strFalsy, initOrderResult]
                    refine ⟨by split <;> simp, by split <;> simp, by simp [hfo],
                      by simp [hfp]⟩

/-- C2 witness: every step succeeds and the confirmation page reads `"!"`,
which no pattern matches. -/
theorem placeOrder_success_extraction_defaults_witness :
    (placeOrder sampleRequest envAllOk).success = true ∧
    ((placeOrder sampleRequest envAllOk).confirmationNumber ≠ none ∧
      (placeOrder sampleRequest envAllOk).estimatedPickupTime ≠ none ∧
      (findOrderNumber "!".data = none →
        (placeOrder sampleRequest envAllOk).confirmationNumber =
          some "ORDER_PLACED_NO_NUMBER") ∧
      (findPickupTime "!".data = none →
        (placeOrder sampleRequest envAllOk).estimatedPickupTime =
          some "30-40 minutes")) :=
  ⟨rfl, placeOrder_success_extraction_defaults sampleRequest envAllOk "!" rfl rfl⟩

/-- The capture of the anchored capitalized-word matcher is an uppercase
letter followed by a nonempty run of lowercase letters. -/
theorem tryCapWordAt_shape {s w : List Char}
    (h : tryCapWordAt s = some w) : capWordShape w := by
  cases s with
  | nil => cases h
  | cons c rest =>
    by_cases hu : isUpperAZ c = true
    · by_cases hemp : (rest.takeWhile isLowerAZ).isEmpty = true
      · simp [tryCapWordAt, hu, hemp] at h
      · have hshape : w = c :: rest.takeWhile isLowerAZ := by
          cases hdrop : rest.drop (rest.takeWhile isLowerAZ).length with
          | nil => simpa [tryCapWordAt, hu, hemp, hdrop] using h.symm
          | cons d tail =>
            by_cases hd : isWordChar d = true
            · simp [tryCapWordAt, hu, hemp, hdrop, hd] at h
            · simpa [tryCapWordAt, hu, hemp, hdrop, hd] using h.symm
        refine ⟨c, rest.takeWhile isLowerAZ, hshape, hu, by simpa using hemp, ?_⟩
        intro x hx
        exact List.mem_takeWhile_imp hx
    · simp [tryCapWordAt, hu] at h

/-- The anchored catch-all matcher only ever returns such a capture. -/
theorem tryOrderNum4_shape {prev : Option Char} {s w : List Char}
    (h : tryOrderNum4 prev s = some w) : capWordShape w := by
  cases prev with
  | none => exact tryCapWordAt_shape (by simpa [tryOrderNum4] using h)
  | some p =>
    by_cases hp : isWordChar p = true
    · simp [tryOrderNum4, hp] at h
    · exact tryCapWordAt_shape (by simpa [tryOrderNum4, hp] using h)

/-- The scan for the catch-all pattern only ever returns such a capture. -/
theorem scanForMatch_num4_shape :
    ∀ (s : List Char) (prev : Option Char) (w : List Char),
      scanForMatch tryOrderNum4 prev s = some w → capWordShape w := by
  intro s
  induction s with
  | nil =>
    intro prev w h
    exact tryOrderNum4_shape (by simpa [scanForMatch] using h)
  | cons c rest ih =>
    intro prev w h
    rw [scanForMatch] at h
    cases h4 : tryOrderNum4 prev (c :: rest) with
    | some cap =>
      rw [h4] at h
      injection h with hw
      subst hw
      exact tryOrderNum4_shape h4
    | none =>
      rw [h4] at h
      exact ih (some c) w h

/-- A capitalized-word capture is never the sentinel placeholder. -/
theorem capWordShape_ne_sentinel {w : List Char} (h : capWordShape w) :
    String.mk w ≠ "ORDER_PLACED_NO_NUMBER" := by
  obtain ⟨c, ls, rfl, _, hne, hlow⟩ := h
  intro heq
  have hdata : c :: ls = "ORDER_PLACED_NO_NUMBER".data := congrArg String.data heq
  cases ls with
  | nil => exact hne rfl
  | cons l2 ls2 =>
    have h2 : some l2 = some 'R' := by
      calc some l2 = (c :: l2 :: ls2).get? 1 := rfl
        _ = "ORDER_PLACED_NO_NUMBER".data.get? 1 := by rw [hdata]
        _ = some 'R' := rfl
    injection h2 with h2e
    subst h2e
    have := hlow 'R' (List.mem_cons_self 'R' ls2)
    simp [isLowerAZ] at this

/-- C9: on any text that none of the first three order-number patterns
matches but in which the catch-all `\b([A-Z][a-z]+)\b` finds a word, the
extractor stores the first such capitalized word as the confirmation number,
not the sentinel placeholder. -/
theorem extract_catchall_first_capitalized (t : String) (w : List Char)
    (h1 : firstMatch tryOrderNum1 t.data = none)
    (h2 : firstMatch tryOrderNum2 t.data = none)
    (h3 : firstMatch tryOrderNum3 t.data = none)
    (h4 : firstMatch tryOrderNum4 t.data = some w) :
    (extractFromText t.data initOrderResult).confirmationNumber = some (String.mk w) ∧
    String.mk w ≠ "ORDER_PLACED_NO_NUMBER" := by
  have hshape : capWordShape w := scanForMatch_num4_shape _ _ _ h4
  have hfind : findOrderNumber t.data = some w := by
    unfold findOrderNumber
    rw [h1, h2, h3, h4]
  refine ⟨?_, capWordShape_ne_sentinel hshape⟩
  unfold extractFromText
  rw [hfind]
  obtain ⟨c, ls, rfl, _, _, _⟩ := hshape
  simp [strFalsy]

/-- C9 witness: the text `"Confirmed"`. -/
theorem extract_catchall_first_capitalized_witness :
    firstMatch tryOrderNum1 "Confirmed".data = none ∧
    firstMatch tryOrderNum2 "Confirmed".data = none ∧
    firstMatch tryOrderNum3 "Confirmed".data = none ∧
    firstMatch tryOrderNum4 "Confirmed".data = some "Confirmed".data ∧
    ((extractFromText "Confirmed".data initOrderResult).confirmationNumber =
        some (String.mk "Confirmed".data) ∧
      String.mk "Confirmed".data ≠ "ORDER_PLACED_NO_NUMBER") :=
  ⟨rfl, rfl, rfl, rfl,
    extract_catchall_first_capitalized "Confirmed" "Confirmed".data rfl rfl rfl rfl⟩

end Social7
